import Mathlib

/-!
A shallow embedding of the `feed` Django application (models, signal handlers
and views in `src/feed/`), together with proofs checking the natural-language
specification against it.

Conventions of the embedding:
* database tables are lists of row structures, collected in a `State`;
* machine timestamps (`DateTimeField`) are naturals (seconds);
* nullable columns and file/media fields are `Option`s (Python truthiness of a
  populated `FileField` corresponds to `isSome`);
* each view/handler is a pure function from a `State` (plus request data) to a
  new `State` and/or a response value.
-/

namespace Feed

/-- Row of the `Post` table (`feed/models.py`, class `Post`).  Only the columns
the verified behaviours read are kept; `likes_count`, `comments_count` and
`shares_count` are the denormalized counters. -/
structure PostRow where
  id : Nat
  author : Nat
  category : String
  content : String
  created_at : Nat
  likes_count : Nat
  comments_count : Nat
  shares_count : Nat
deriving Repr, DecidableEq

/-- Row of the `Like` table: a `(user, post)` pair with a creation timestamp. -/
structure LikeRow where
  id : Nat
  user : Nat
  post : Nat
  created_at : Nat
deriving Repr, DecidableEq

/-- Row of the `Comment` table. -/
structure CommentRow where
  id : Nat
  post : Nat
  author : Nat
  content : String
  created_at : Nat
deriving Repr, DecidableEq

/-- Row of the `Follow` table: a `(follower, following)` pair. -/
structure FollowRow where
  id : Nat
  follower : Nat
  following : Nat
deriving Repr, DecidableEq

/-- Row of the `Conversation` table; `participants` embeds the
many-to-many participant set. -/
structure ConversationRow where
  id : Nat
  participants : List Nat
deriving Repr, DecidableEq

/-- Row of the `DirectMessage` table.  `image`, `video`, `voice_note` model the
media file fields (`none` = blank), `post` the nullable shared-post reference. -/
structure MessageRow where
  id : Nat
  conversation : Option Nat
  sender : Nat
  recipient : Nat
  message_type : String
  content : String
  image : Option String
  video : Option String
  voice_note : Option String
  post : Option Nat
  is_read : Bool
  created_at : Nat
deriving Repr, DecidableEq

/-- The relational store: one list per table used by the verified slice. -/
structure State where
  posts : List PostRow
  likes : List LikeRow
  comments : List CommentRow
  follows : List FollowRow
  conversations : List ConversationRow
  messages : List MessageRow
deriving Repr, DecidableEq

/-! ### Counter maintenance (`feed/models.py` + `feed/signals.py`) -/

/-- `post.likes.count()`: the live number of `Like` rows referencing `pid`. -/
def live_likes (s : State) (pid : Nat) : Nat :=
  (s.likes.filter (fun l => l.post == pid)).length

/-- `post.comments.count()`: the live number of `Comment` rows referencing `pid`. -/
def live_comments (s : State) (pid : Nat) : Nat :=
  (s.comments.filter (fun c => c.post == pid)).length

/-- `Post.update_likes_count` (models.py): recompute the cached likes counter
from the live `Like` rows and persist just that field
(`self.save(update_fields=['likes_count'])`). -/
def update_likes_count (s : State) (pid : Nat) : State :=
  { s with posts := s.posts.map (fun p =>
      if p.id == pid then { p with likes_count := live_likes s pid } else p) }

/-- `Post.update_comments_count` (models.py): recompute the cached comments
counter from the live `Comment` rows and persist just that field. -/
def update_comments_count (s : State) (pid : Nat) : State :=
  { s with posts := s.posts.map (fun p =>
      if p.id == pid then { p with comments_count := live_comments s pid } else p) }

/-- Creation of a `Like` row followed by the `post_save` signal handler
`update_post_likes_on_create` (signals.py), which runs
`instance.post.update_likes_count()` on the freshly created instance. -/
def createLike (s : State) (l : LikeRow) : State :=
  update_likes_count { s with likes := l :: s.likes } l.post

/-- Deletion of a `Like` row followed by the `post_delete` signal handler
`update_post_likes_on_delete` (signals.py). -/
def deleteLike (s : State) (l : LikeRow) : State :=
  update_likes_count
    { s with likes := s.likes.eraseP (fun x => x.id == l.id) } l.post

/-- Creation of a `Comment` row followed by the `post_save` signal handler
`update_post_comments_on_create` (signals.py). -/
def createComment (s : State) (c : CommentRow) : State :=
  update_comments_count { s with comments := c :: s.comments } c.post

/-- Deletion of a `Comment` row followed by the `post_delete` signal handler
`update_post_comments_on_delete` (signals.py). -/
def deleteComment (s : State) (c : CommentRow) : State :=
  update_comments_count
    { s with comments := s.comments.eraseP (fun x => x.id == c.id) } c.post

/-! ### Like toggling (`toggle_like_view`, views.py) -/

/-- `Like.objects.filter(user=.., post=..).exists()`: whether the pair is in
the liked state. -/
def isLiked (s : State) (user pid : Nat) : Bool :=
  s.likes.any (fun l => l.user == user && l.post == pid)

/-- `toggle_like_view` (views.py): find the first `Like` for `(user, post)`;
delete it when present, create one otherwise; each mutation fires the matching
signal which recomputes the cached counter.  `newId` and `newT` stand for the
fresh primary key and `auto_now_add` timestamp of a created row.  Returns the
new state and the `liked` flag of the JSON response. -/
def toggle_like_view (s : State) (user pid newId newT : Nat) : State × Bool :=
  match s.likes.find? (fun l => l.user == user && l.post == pid) with
  | some l =>
      (update_likes_count
        { s with likes := s.likes.eraseP (fun x => x.id == l.id) } l.post, false)
  | none =>
      (update_likes_count
        { s with likes := ⟨newId, user, pid, newT⟩ :: s.likes } pid, true)

/-! ### A model of SQL `ORDER BY`

`order_by(..)` on a queryset returns some permutation of the rows sorted by the
requested key; we realise it by insertion sort on a boolean "may precede"
relation. -/

/-- Insert `a` in front of the first element it may precede. -/
def orderInsert (le : α → α → Bool) (a : α) : List α → List α
  | [] => [a]
  | b :: l => if le a b then a :: b :: l else b :: orderInsert le a l

/-- `order_by`: sort the row list by the "may precede" relation `le`. -/
def orderBy (le : α → α → Bool) : List α → List α
  | [] => []
  | a :: l => orderInsert le a (orderBy le l)

/-! ### Trending (`trending_view`, views.py) -/

/-- The row set over which the two aggregates of
`annotate(engagement_score=Count('likes') * 2 + Count('comments') * 3)` are
computed.  The single generated SQL query joins the post once against its likes
and once against its comments (`LEFT OUTER JOIN`), so when both sides are
nonempty every like row is paired with every comment row, and an empty side is
padded with a null. -/
def joinedRows (ls : List LikeRow) (cs : List CommentRow) :
    List (Option LikeRow × Option CommentRow) :=
  match ls, cs with
  | [], [] => [(none, none)]
  | [], c :: cs' => (c :: cs').map (fun c => (none, some c))
  | l :: ls', [] => (l :: ls').map (fun l => (some l, none))
  | l :: ls', c :: cs' =>
      ((l :: ls').map (fun a => (c :: cs').map (fun b => (some a, some b)))).flatten

/-- The `engagement_score` annotation of `trending_view`:
`COUNT(like.id) * 2 + COUNT(comment.id) * 3` over the joined row set, i.e. each
aggregate counts the rows of the join whose respective side is non-null. -/
def engagement_score (s : State) (p : PostRow) : Nat :=
  let rows := joinedRows (s.likes.filter (fun l => l.post == p.id))
      (s.comments.filter (fun c => c.post == p.id))
  (rows.filter (fun r => r.1.isSome)).length * 2
    + (rows.filter (fun r => r.2.isSome)).length * 3

/-- The engagement score as the spec words it: `likes_in_window_count * 2 +
comments_in_window_count * 3` over raw counts of related rows (every like or
comment of an in-window post is itself in-window, since a child row is created
after its post). -/
def spec_engagement_score (s : State) (p : PostRow) : Nat :=
  (s.likes.filter (fun l => l.post == p.id)).length * 2
    + (s.comments.filter (fun c => c.post == p.id)).length * 3

/-- `order_by('-engagement_score', '-created_at')`: `a` may precede `b` iff its
score is higher, or the scores tie and `a` is at least as recent. -/
def trendingLe (s : State) (a b : PostRow) : Bool :=
  engagement_score s b < engagement_score s a
    || (engagement_score s a == engagement_score s b
        && b.created_at ≤ a.created_at)

/-- Start of the trailing window: `timezone.now() - timedelta(hours=24)`. -/
def last_24h (now : Nat) : Nat := now - 24 * 60 * 60

/-- `trending_view` (views.py): posts created within the trailing 24-hour
window, ordered by descending `engagement_score` then descending
`created_at`, truncated to 20 (`[:20]`). -/
def trending_posts (s : State) (now : Nat) : List PostRow :=
  (orderBy (trendingLe s)
    (s.posts.filter (fun p => last_24h now ≤ p.created_at))).take 20

/-- `Paginator(_, 10).get_page(n)`: the `n`-th page of ten rows. -/
def paginator_page (l : List PostRow) (n : Nat) : List PostRow :=
  (l.drop ((n - 1) * 10)).take 10

/-! ### Polling feed sync (`check_new_posts` / `load_new_posts`, views.py) -/

/-- Model of the library collaborator `django.utils.dateparse.parse_datetime`
applied to the `since` query parameter.  Timestamps are modelled as naturals: a
cursor string parses to the natural it spells in decimal, and any other string
is unparseable (`none`).  The views rely only on the parse being a function
that yields `none`, or raises, on malformed input. -/
def parse_datetime (str : String) : Option Nat :=
  if str.data ≠ [] ∧ str.data.all Char.isDigit then
    some (str.data.foldl (fun n c => 10 * n + (c.toNat - 48)) 0)
  else none

/-- The shared category filter of both polling views:
`if category and category != 'all': queryset.filter(category=category)`. -/
def categoryFilter (category : String) (l : List PostRow) : List PostRow :=
  if category ≠ "" ∧ category ≠ "all" then
    l.filter (fun p => p.category == category)
  else l

/-- `check_new_posts` (views.py): count of posts with `created_at` strictly
greater than the parsed cursor, excluding the requester's own posts, filtered
by category.  A missing cursor yields count 0; a failed parse makes the
subsequent `created_at__gt=None` filter raise, which the `except` turns into
the same zero-count response. -/
def check_new_posts (s : State) (user : Nat) (since : Option String)
    (category : String) : Nat :=
  match since with
  | none => 0
  | some str =>
    match parse_datetime str with
    | none => 0
    | some dt =>
      (categoryFilter category
        ((s.posts.filter (fun p => dt < p.created_at)).filter
          (fun p => p.author != user))).length

/-- The JSON payload of `load_new_posts`: the rendered rows, their count, and
the timestamp of the most recent one. -/
structure LoadNewResp where
  posts : List PostRow
  count : Nat
  latest_timestamp : Option Nat
deriving Repr, DecidableEq

/-- `load_new_posts` (views.py): posts with `created_at` strictly greater than
the parsed cursor, filtered by category (the requester's own posts are NOT
excluded here), ordered by `-created_at`; the response carries the rendered
rows, `posts.count()` and the newest row's timestamp.  Missing cursor or a
failed parse degrade to the empty response as in `check_new_posts`. -/
def load_new_posts (s : State) (since : Option String)
    (category : String) : LoadNewResp :=
  match since with
  | none => ⟨[], 0, none⟩
  | some str =>
    match parse_datetime str with
    | none => ⟨[], 0, none⟩
    | some dt =>
      let posts := orderBy (fun a b => b.created_at ≤ a.created_at)
        (categoryFilter category (s.posts.filter (fun p => dt < p.created_at)))
      ⟨posts, posts.length, posts.head?.map (·.created_at)⟩

/-! ### Direct messages (`DirectMessage.save`, models.py) -/

/-- The auto-detection branch of `DirectMessage.save`: the message type follows
from which payload field is populated, checked in the order
voice note, video, image, shared post, with `TEXT` as the fallback. -/
def detectMessageType (m : MessageRow) : String :=
  if m.voice_note.isSome then "VOICE"
  else if m.video.isSome then "VIDEO"
  else if m.image.isSome then "IMAGE"
  else if m.post.isSome then "POST"
  else "TEXT"

/-- `DirectMessage.save`: stamp the detected message type on the row before it
is persisted. -/
def saveMessage (m : MessageRow) : MessageRow :=
  { m with message_type := detectMessageType m }

/-! ### Conversations (`mark_conversation_read` / `get_new_messages`, views.py) -/

/-- `Conversation.objects.filter(participants=u).filter(participants=v).first()`:
the first conversation both users participate in. -/
def findConversation (s : State) (u v : Nat) : Option ConversationRow :=
  s.conversations.find?
    (fun c => c.participants.contains u && c.participants.contains v)

/-- `mark_conversation_read` (views.py): in the conversation shared with
`other`, bulk-update `is_read = True` on the messages addressed to the
requester that are still unread
(`filter(recipient=request.user, is_read=False).update(is_read=True)`);
without a shared conversation nothing changes. -/
def mark_conversation_read (s : State) (user other : Nat) : State :=
  match findConversation s user other with
  | none => s
  | some c =>
      { s with messages := s.messages.map (fun m =>
          if m.conversation == some c.id && m.recipient == user && !m.is_read
          then { m with is_read := true } else m) }

/-- `get_new_messages` (views.py): poll the conversation with `other` for
messages newer than the `since` cursor that the requester did not send, in
ascending `created_at` order; the still-unread ones among them are bulk-marked
read.  A missing or unparseable cursor, or a missing conversation, yields the
empty list and no state change. -/
def get_new_messages (s : State) (user other : Nat) (since : Option String) :
    State × List MessageRow :=
  match since with
  | none => (s, [])
  | some str =>
    match parse_datetime str with
    | none => (s, [])
    | some dt =>
      match findConversation s user other with
      | none => (s, [])
      | some c =>
        let matcher := fun (m : MessageRow) =>
          m.conversation == some c.id && dt < m.created_at && m.sender != user
        let newMsgs := orderBy (fun a b => a.created_at ≤ b.created_at)
          (s.messages.filter matcher)
        ({ s with messages := s.messages.map (fun m =>
            if matcher m && !m.is_read then { m with is_read := true } else m) },
         newMsgs)

/-! ### Follow toggling (`toggle_follow_view`, views.py) -/

/-- The JSON response of `toggle_follow_view`. -/
structure ToggleFollowResp where
  status : Nat
  success : Bool
  error : Option String
  following : Option Bool
  followers_count : Option Nat
deriving Repr, DecidableEq

/-- `toggle_follow_view` (views.py): a self-follow attempt is rejected with a
400 error before any row is touched; otherwise the first matching `Follow` row
is deleted, or one is created (`newId` is its fresh primary key), and the
response reports the new state and follower count. -/
def toggle_follow_view (s : State) (user target newId : Nat) :
    State × ToggleFollowResp :=
  if target == user then
    (s, ⟨400, false, some "You cannot follow yourself", none, none⟩)
  else
    match s.follows.find?
        (fun f => f.follower == user && f.following == target) with
    | some f =>
        let s' := { s with follows := s.follows.eraseP (fun x => x.id == f.id) }
        (s', ⟨200, true, none, some false,
          some (s'.follows.filter (fun x => x.following == target)).length⟩)
    | none =>
        let s' := { s with follows := ⟨newId, user, target⟩ :: s.follows }
        (s', ⟨200, true, none, some true,
          some (s'.follows.filter (fun x => x.following == target)).length⟩)

/-! ### Concrete fixture states used to instantiate the theorems -/

/-- Fixture: a store holding one post (id 1, author 2) and nothing else. -/
def sC1 : State := ⟨[⟨1, 2, "GENERAL", "x", 0, 0, 0, 0⟩], [], [], [], [], []⟩

/-- Fixture: a like by user 3 on post 1. -/
def lC1 : LikeRow := ⟨1, 3, 1, 5⟩

/-- Fixture: a comment by user 3 on post 1. -/
def cC1 : CommentRow := ⟨1, 1, 3, "c", 6⟩

/-- Fixture: the row of post 1 after `createLike sC1 lC1`. -/
def pC1 : PostRow := ⟨1, 2, "GENERAL", "x", 0, 1, 0, 0⟩

/-- Fixture: post 1 (created at 100) with two likes and one comment, the
child rows all created after the post. -/
def sC2 : State := ⟨[⟨1, 9, "GENERAL", "hi", 100, 2, 1, 0⟩],
  [⟨1, 2, 1, 110⟩, ⟨2, 3, 1, 120⟩], [⟨1, 1, 4, "c", 130⟩], [], [], []⟩

/-- Fixture: the post row of `sC2`. -/
def pC2 : PostRow := ⟨1, 9, "GENERAL", "hi", 100, 2, 1, 0⟩

/-- Fixture: a single post authored by user 7, created at time 5. -/
def sC3 : State := ⟨[⟨1, 7, "GENERAL", "mine", 5, 0, 0, 0⟩], [], [], [], [], []⟩

/-- Fixture: one post by user 7 and one by user 8, both after time 3. -/
def sC3w : State := ⟨[⟨1, 7, "GENERAL", "mine", 5, 0, 0, 0⟩,
  ⟨2, 8, "GENERAL", "theirs", 6, 0, 0, 0⟩], [], [], [], [], []⟩

/-- Fixture: one post, no likes, for the double-toggle witness. -/
def sC4 : State := ⟨[⟨1, 2, "GENERAL", "x", 0, 0, 0, 0⟩], [], [], [], [], []⟩

/-- Fixture: one post created at 4000, inside the window of a request at
time 90000. -/
def sC5 : State := ⟨[⟨1, 2, "GENERAL", "x", 4000, 0, 0, 0⟩], [], [], [], [], []⟩

/-- Fixture: the post row of `sC5`. -/
def pC5 : PostRow := ⟨1, 2, "GENERAL", "x", 4000, 0, 0, 0⟩

/-- Fixture: a message carrying only a voice note. -/
def mC6v : MessageRow :=
  ⟨1, some 1, 1, 2, "TEXT", "", none, none, some "v.ogg", none, false, 10⟩

/-- Fixture: a message carrying only a video. -/
def mC6vid : MessageRow :=
  ⟨2, some 1, 1, 2, "TEXT", "", none, some "m.mp4", none, none, false, 11⟩

/-- Fixture: a message carrying only an image. -/
def mC6img : MessageRow :=
  ⟨3, some 1, 1, 2, "TEXT", "", some "i.png", none, none, none, false, 12⟩

/-- Fixture: a message carrying only a shared post reference. -/
def mC6post : MessageRow :=
  ⟨4, some 1, 1, 2, "TEXT", "", none, none, none, some 5, false, 13⟩

/-- Fixture: a message carrying only text. -/
def mC6txt : MessageRow :=
  ⟨5, some 1, 1, 2, "TEXT", "hello", none, none, none, none, false, 14⟩

/-- Fixture: a conversation between users 1 and 2 with one unread message in
each direction. -/
def sC7 : State := ⟨[], [], [], [], [⟨1, [1, 2]⟩],
  [⟨1, some 1, 2, 1, "TEXT", "hi", none, none, none, none, false, 10⟩,
   ⟨2, some 1, 1, 2, "TEXT", "yo", none, none, none, none, false, 11⟩]⟩

/-- Fixture: the conversation row of `sC7`. -/
def cC7 : ConversationRow := ⟨1, [1, 2]⟩

/-- Fixture: a store with one post, for the malformed-cursor witness. -/
def sC8 : State := ⟨[⟨1, 2, "GENERAL", "x", 5, 0, 0, 0⟩], [], [], [], [], []⟩

/-- Fixture: a conversation between users 1 and 2; messages 1 and 2 were sent
by user 2 after time 5 (out of order), message 3 by user 1. -/
def sC10 : State := ⟨[], [], [], [], [⟨1, [1, 2]⟩],
  [⟨1, some 1, 2, 1, "TEXT", "a", none, none, none, none, false, 10⟩,
   ⟨2, some 1, 2, 1, "TEXT", "b", none, none, none, none, false, 8⟩,
   ⟨3, some 1, 1, 2, "TEXT", "c", none, none, none, none, false, 12⟩]⟩

/-- Fixture: the conversation row of `sC10`. -/
def cC10 : ConversationRow := ⟨1, [1, 2]⟩

/-! ### Helper lemmas -/

theorem mem_orderInsert {le : α → α → Bool} {a x : α} :
    ∀ {l : List α}, x ∈ orderInsert le a l ↔ x = a ∨ x ∈ l
  | [] => by simp [orderInsert]
  | b :: l => by
    by_cases h : le a b
    · simp [orderInsert, h]
    · simp only [orderInsert, h, Bool.false_eq_true, if_false, List.mem_cons,
        mem_orderInsert (l := l)]
      tauto

theorem orderInsert_perm (le : α → α → Bool) (a : α) :
    ∀ (l : List α), List.Perm (orderInsert le a l) (a :: l)
  | [] => List.Perm.refl _
  | b :: l => by
    simp only [orderInsert]
    by_cases h : le a b
    · simp [h]
    · simpa [h] using ((orderInsert_perm le a l).cons b).trans (List.Perm.swap a b l)

theorem orderBy_perm (le : α → α → Bool) :
    ∀ (l : List α), List.Perm (orderBy le l) l
  | [] => List.Perm.refl _
  | a :: l => (orderInsert_perm le a (orderBy le l)).trans ((orderBy_perm le l).cons a)

theorem mem_orderBy {le : α → α → Bool} {l : List α} {x : α} :
    x ∈ orderBy le l ↔ x ∈ l :=
  (orderBy_perm le l).mem_iff

theorem length_orderBy (le : α → α → Bool) (l : List α) :
    (orderBy le l).length = l.length :=
  (orderBy_perm le l).length_eq

theorem pairwise_orderInsert (le : α → α → Bool)
    (total : ∀ a b, le a b = true ∨ le b a = true)
    (htrans : ∀ a b c, le a b = true → le b c = true → le a c = true)
    (a : α) : ∀ {l : List α}, l.Pairwise (fun x y => le x y = true) →
      (orderInsert le a l).Pairwise (fun x y => le x y = true)
  | [], _ => by simp [orderInsert]
  | b :: l, h => by
    simp only [orderInsert]
    by_cases hab : le a b
    · rw [if_pos hab]
      refine List.Pairwise.cons (fun x hx => ?_) h
      rcases List.mem_cons.mp hx with rfl | hx
      · exact hab
      · exact htrans a b x hab (List.rel_of_pairwise_cons h hx)
    · have hba : le b a = true := (total a b).resolve_left hab
      rw [if_neg hab]
      refine List.Pairwise.cons (fun x hx => ?_)
        (pairwise_orderInsert le total htrans a h.of_cons)
      rcases mem_orderInsert.mp hx with rfl | hx
      · exact hba
      · exact List.rel_of_pairwise_cons h hx

theorem pairwise_orderBy (le : α → α → Bool)
    (total : ∀ a b, le a b = true ∨ le b a = true)
    (htrans : ∀ a b c, le a b = true → le b c = true → le a c = true) :
    ∀ (l : List α), (orderBy le l).Pairwise (fun x y => le x y = true)
  | [] => List.Pairwise.nil
  | a :: l =>
    pairwise_orderInsert le total htrans a (pairwise_orderBy le total htrans l)

theorem length_filter_add_length_filter_not (l : List α) (p q : α → Bool)
    (hpq : ∀ a, q a = !p a) :
    (l.filter p).length + (l.filter q).length = l.length := by
  induction l with
  | nil => rfl
  | cons a l ih =>
    by_cases h : p a
    · simp [List.filter_cons, h, hpq, Nat.succ_add, ih]
    · simp [List.filter_cons, h, hpq, ← Nat.add_assoc, Nat.add_right_comm, ih]

theorem cached_likes_after_update (s : State) (pid : Nat) :
    ∀ p ∈ (update_likes_count s pid).posts, p.id = pid →
      p.likes_count = live_likes (update_likes_count s pid) pid := by
  intro p hp hid
  have hlive : live_likes (update_likes_count s pid) pid = live_likes s pid := rfl
  rw [hlive]
  simp only [update_likes_count, List.mem_map] at hp
  obtain ⟨q, hq, rfl⟩ := hp
  by_cases h : q.id == pid
  · simp [h]
  · simp only [h, Bool.false_eq_true, if_false] at hid ⊢
    exact absurd (by simpa using hid) (by simpa using h)

theorem cached_comments_after_update (s : State) (pid : Nat) :
    ∀ p ∈ (update_comments_count s pid).posts, p.id = pid →
      p.comments_count = live_comments (update_comments_count s pid) pid := by
  intro p hp hid
  have hlive : live_comments (update_comments_count s pid) pid
      = live_comments s pid := rfl
  rw [hlive]
  simp only [update_comments_count, List.mem_map] at hp
  obtain ⟨q, hq, rfl⟩ := hp
  by_cases h : q.id == pid
  · simp [h]
  · simp only [h, Bool.false_eq_true, if_false] at hid ⊢
    exact absurd (by simpa using hid) (by simpa using h)

theorem eq_of_mem_of_id_eq :
    ∀ {l : List LikeRow}, (l.map LikeRow.id).Nodup →
      ∀ {a b : LikeRow}, a ∈ l → b ∈ l → a.id = b.id → a = b := by
  intro l
  induction l with
  | nil => intro _ a b ha; exact absurd ha (List.not_mem_nil a)
  | cons x l ih =>
    intro h a b ha hb hid
    rw [List.map_cons, List.nodup_cons] at h
    rcases List.mem_cons.mp ha with rfl | ha'
    · rcases List.mem_cons.mp hb with rfl | hb'
      · rfl
      · exact absurd (hid ▸ List.mem_map_of_mem LikeRow.id hb') h.1
    · rcases List.mem_cons.mp hb with rfl | hb'
      · exact absurd (hid ▸ List.mem_map_of_mem LikeRow.id ha') h.1
      · exact ih h.2 ha' hb' hid

/-! ### Claim C1 -/

/-- Claim C1: immediately after any Like or Comment referencing a post is
created or deleted, the post's corresponding denormalized counter
(`likes_count` for a Like event, `comments_count` for a Comment event) equals
the live count of child rows referencing it, because the signal handler
recomputes the counter from the live rows and persists just that field. -/
theorem C1_counters_match_live_counts (s : State) (l : LikeRow) (c : CommentRow) :
    (∀ p ∈ (createLike s l).posts, p.id = l.post →
        p.likes_count = live_likes (createLike s l) l.post)
  ∧ (∀ p ∈ (deleteLike s l).posts, p.id = l.post →
        p.likes_count = live_likes (deleteLike s l) l.post)
  ∧ (∀ p ∈ (createComment s c).posts, p.id = c.post →
        p.comments_count = live_comments (createComment s c) c.post)
  ∧ (∀ p ∈ (deleteComment s c).posts, p.id = c.post →
        p.comments_count = live_comments (deleteComment s c) c.post) :=
  ⟨cached_likes_after_update { s with likes := l :: s.likes } l.post,
   cached_likes_after_update
     { s with likes := s.likes.eraseP (fun x => x.id == l.id) } l.post,
   cached_comments_after_update { s with comments := c :: s.comments } c.post,
   cached_comments_after_update
     { s with comments := s.comments.eraseP (fun x => x.id == c.id) } c.post⟩

/-- Witness for C1 at a concrete store: after user 3 likes post 1, the cached
counter of the post row equals the live like count. -/
theorem C1_counters_match_live_counts_witness :
    pC1.likes_count = live_likes (createLike sC1 lC1) lC1.post :=
  (C1_counters_match_live_counts sC1 lC1 cC1).1 pC1 (by decide) (by decide)

/-! ### Claim C2 -/

/-- Claim C2 fails on the code: at a post with L = 2 likes and C = 1 comment,
all inside the window, the double aggregation
`Count('likes') * 2 + Count('comments') * 3` is evaluated over the single
like/comment join, so each count sees the 2 x 1 joined rows and the score used
to rank the post is 10, not the claimed `2*L + 3*C = 7` (which is also what
the code's own comment `likes * 2 + comments * 3` promises). -/
theorem C2_engagement_score_join_inflation :
    (sC2.likes.filter (fun l => l.post == pC2.id)).length = 2
  ∧ (sC2.comments.filter (fun c => c.post == pC2.id)).length = 1
  ∧ engagement_score sC2 pC2 = 10
  ∧ spec_engagement_score sC2 pC2 = 7
  ∧ engagement_score sC2 pC2 ≠ spec_engagement_score sC2 pC2 := by decide

/-! ### Claim C6 -/

/-- Claim C6: the message type stamped by `DirectMessage.save` is derived from
which payload field is populated, in priority order voice > video > image >
shared-post > text. -/
theorem C6_message_type_priority (m : MessageRow) :
    (m.voice_note.isSome → (saveMessage m).message_type = "VOICE")
  ∧ (m.voice_note = none → m.video.isSome →
        (saveMessage m).message_type = "VIDEO")
  ∧ (m.voice_note = none → m.video = none → m.image.isSome →
        (saveMessage m).message_type = "IMAGE")
  ∧ (m.voice_note = none → m.video = none → m.image = none → m.post.isSome →
        (saveMessage m).message_type = "POST")
  ∧ (m.voice_note = none → m.video = none → m.image = none → m.post = none →
        (saveMessage m).message_type = "TEXT") := by
  unfold saveMessage detectMessageType
  refine ⟨?_, ?_, ?_, ?_, ?_⟩ <;> intros <;> simp_all

/-- Witness for C6 on five concrete messages, one per payload kind. -/
theorem C6_message_type_priority_witness :
    (saveMessage mC6v).message_type = "VOICE"
  ∧ (saveMessage mC6vid).message_type = "VIDEO"
  ∧ (saveMessage mC6img).message_type = "IMAGE"
  ∧ (saveMessage mC6post).message_type = "POST"
  ∧ (saveMessage mC6txt).message_type = "TEXT" :=
  ⟨(C6_message_type_priority mC6v).1 (by decide),
   (C6_message_type_priority mC6vid).2.1 rfl (by decide),
   (C6_message_type_priority mC6img).2.2.1 rfl rfl (by decide),
   (C6_message_type_priority mC6post).2.2.2.1 rfl rfl rfl (by decide),
   (C6_message_type_priority mC6txt).2.2.2.2 rfl rfl rfl rfl⟩

/-! ### Claim C8 -/

/-- Claim C8: when the `since` parameter does not parse, both polling
endpoints degrade to a zero-count / empty-content response instead of failing
the request. -/
theorem C8_malformed_since_zero_response (s : State) (user : Nat)
    (str category : String) (h : parse_datetime str = none) :
    check_new_posts s user (some str) category = 0
  ∧ (load_new_posts s (some str) category).posts = []
  ∧ (load_new_posts s (some str) category).count = 0 := by
  refine ⟨?_, ?_, ?_⟩ <;> simp [check_new_posts, load_new_posts, h]

/-- Witness for C8: a malformed cursor string on a store that does hold a
newer post still yields the zero/empty responses. -/
theorem C8_malformed_since_zero_response_witness :
    check_new_posts sC8 1 (some "not-a-timestamp") "all" = 0
  ∧ (load_new_posts sC8 (some "not-a-timestamp") "all").posts = []
  ∧ (load_new_posts sC8 (some "not-a-timestamp") "all").count = 0 :=
  C8_malformed_since_zero_response sC8 1 "not-a-timestamp" "all" (by decide)

/-! ### Claim C9 -/

/-- Claim C9: a user's follow-toggle on themselves is rejected with a 400
error response and the store — in particular the `Follow` table — is left
completely unchanged. -/
theorem C9_self_follow_rejected (s : State) (user newId : Nat) :
    (toggle_follow_view s user user newId).1 = s
  ∧ (toggle_follow_view s user user newId).2.status = 400
  ∧ (toggle_follow_view s user user newId).2.success = false
  ∧ (toggle_follow_view s user user newId).2.error
      = some "You cannot follow yourself" := by
  refine ⟨?_, ?_, ?_, ?_⟩ <;> simp [toggle_follow_view]

/-! ### Claim C3 -/

/-- Claim C3 fails on the code: `check_new_posts` excludes the requester's own
posts but `load_new_posts` does not, so with a store holding one post authored
by the requester after the cursor, check-new reports 0 while load-new returns
one item. -/
theorem C3_check_load_counts_disagree :
    (load_new_posts sC3 (some "3") "all").count
      ≠ check_new_posts sC3 7 (some "3") "all" := by decide

/-- The commutation of the shared category filter with any further row
filter. -/
theorem categoryFilter_filter (category : String) (q : PostRow → Bool)
    (l : List PostRow) :
    categoryFilter category (l.filter q) = (categoryFilter category l).filter q := by
  unfold categoryFilter
  split
  · rw [List.filter_filter, List.filter_filter]
    exact List.filter_congr (fun x _ => by rw [Bool.and_comm])
  · rfl

/-- Claim C3 amended: for the same parsed cursor and category filter,
load-new's returned content length equals check-new's count plus the number of
the requester's own posts matching the filter with `created_at` strictly
greater than the cursor (check-new excludes the requester's own posts,
load-new does not). -/
theorem C3_load_count_eq_check_count_plus_own (s : State) (user : Nat)
    (str category : String) (dt : Nat) (h : parse_datetime str = some dt) :
    (load_new_posts s (some str) category).count
      = check_new_posts s user (some str) category
        + ((categoryFilter category
            (s.posts.filter (fun p => dt < p.created_at))).filter
              (fun p => p.author == user)).length := by
  simp only [load_new_posts, check_new_posts, h]
  rw [length_orderBy, categoryFilter_filter category (fun p => p.author != user)]
  have hsplit := length_filter_add_length_filter_not
    (categoryFilter category (s.posts.filter (fun p => dt < p.created_at)))
    (fun p => p.author == user) (fun p => p.author != user) (fun _ => rfl)
  omega

/-- Witness for the amended C3 at a concrete store: one own and one foreign
post after the cursor give load-new count 2 = check-new count 1 plus 1 own. -/
theorem C3_load_count_eq_check_count_plus_own_witness :
    (load_new_posts sC3w (some "3") "all").count
      = check_new_posts sC3w 7 (some "3") "all"
        + ((categoryFilter "all"
            (sC3w.posts.filter (fun p => 3 < p.created_at))).filter
              (fun p => p.author == 7)).length :=
  C3_load_count_eq_check_count_plus_own sC3w 7 "3" "all" 3 (by decide)

/-! ### Claim C5 -/

/-- Totality of the trending "may precede" relation. -/
theorem trendingLe_total (s : State) (a b : PostRow) :
    trendingLe s a b = true ∨ trendingLe s b a = true := by
  rcases Nat.lt_trichotomy (engagement_score s a) (engagement_score s b)
    with h | h | h
  · right; simp [trendingLe, h]
  · rcases Nat.le_total b.created_at a.created_at with hc | hc
    · left; simp [trendingLe, h, hc]
    · right; simp [trendingLe, h, hc]
  · left; simp [trendingLe, h]

/-- Transitivity of the trending "may precede" relation. -/
theorem trendingLe_trans (s : State) (a b c : PostRow)
    (hab : trendingLe s a b = true) (hbc : trendingLe s b c = true) :
    trendingLe s a c = true := by
  simp only [trendingLe, Bool.or_eq_true, Bool.and_eq_true, decide_eq_true_eq,
    beq_iff_eq] at hab hbc ⊢
  omega

/-- Claim C5: the trending list only holds posts created within the trailing
24-hour window, is ordered by descending engagement score with ties broken by
descending creation time, is truncated to at most 20 posts, and its pages of
10 (at most 10 rows each) concatenate back to the whole list. -/
theorem C5_trending_window_order_bound (s : State) (now : Nat) :
    (trending_posts s now).length ≤ 20
  ∧ (∀ p ∈ trending_posts s now, last_24h now ≤ p.created_at)
  ∧ (trending_posts s now).Pairwise (fun a b =>
      engagement_score s b < engagement_score s a
        ∨ (engagement_score s a = engagement_score s b
            ∧ b.created_at ≤ a.created_at))
  ∧ (∀ n, (paginator_page (trending_posts s now) n).length ≤ 10)
  ∧ paginator_page (trending_posts s now) 1
      ++ paginator_page (trending_posts s now) 2 = trending_posts s now := by
  refine ⟨List.length_take_le _ _, ?_, ?_, fun n => List.length_take_le _ _, ?_⟩
  · intro p hp
    have hp' : p ∈ orderBy (trendingLe s)
        (s.posts.filter (fun p => last_24h now ≤ p.created_at)) :=
      (List.take_sublist 20 _).subset hp
    have := (List.mem_filter.mp (mem_orderBy.mp hp')).2
    exact of_decide_eq_true this
  · have hp := pairwise_orderBy (trendingLe s) (trendingLe_total s)
      (trendingLe_trans s) (s.posts.filter (fun p => last_24h now ≤ p.created_at))
    have := hp.sublist (List.take_sublist 20 _)
    exact this.imp (fun h => by
      simpa [trendingLe, Bool.or_eq_true, Bool.and_eq_true, decide_eq_true_eq,
        beq_iff_eq] using h)
  · have hlen : (trending_posts s now).length ≤ 20 := List.length_take_le _ _
    have h2 : ((trending_posts s now).drop 10).length ≤ 10 := by
      rw [List.length_drop]; omega
    have e1 : paginator_page (trending_posts s now) 1
        = (trending_posts s now).take 10 := rfl
    have e2 : paginator_page (trending_posts s now) 2
        = (trending_posts s now).drop 10 := List.take_of_length_le h2
    rw [e1, e2, List.take_append_drop]

/-- Witness for C5 at a concrete store and request time. -/
theorem C5_trending_window_order_bound_witness :
    (trending_posts sC5 90000).length ≤ 20 ∧ last_24h 90000 ≤ pC5.created_at :=
  ⟨(C5_trending_window_order_bound sC5 90000).1,
   (C5_trending_window_order_bound sC5 90000).2.1 pC5 (by decide)⟩

/-! ### Claim C7 -/

/-- Claim C7: the mark-conversation-read bulk update sets `is_read = true` on
exactly the previously-unread messages of the shared conversation addressed to
the requester, touching no other message and no other field: positionally, a
message addressed to the requester in that conversation becomes itself with
`is_read := true`, and a message addressed to anyone else, from another
conversation, or already read, is returned unchanged. -/
theorem C7_mark_conversation_read_frame (s : State) (user other : Nat)
    (c : ConversationRow) (hc : findConversation s user other = some c) :
    (mark_conversation_read s user other).messages.length = s.messages.length
  ∧ ∀ (i : Nat) (hi : i < s.messages.length)
      (hi' : i < (mark_conversation_read s user other).messages.length),
      ((s.messages.get ⟨i, hi⟩).conversation = some c.id →
        (s.messages.get ⟨i, hi⟩).recipient = user →
        (s.messages.get ⟨i, hi⟩).is_read = false →
          (mark_conversation_read s user other).messages.get ⟨i, hi'⟩
            = { s.messages.get ⟨i, hi⟩ with is_read := true })
    ∧ ((s.messages.get ⟨i, hi⟩).recipient ≠ user →
          (mark_conversation_read s user other).messages.get ⟨i, hi'⟩
            = s.messages.get ⟨i, hi⟩)
    ∧ ((s.messages.get ⟨i, hi⟩).conversation ≠ some c.id →
          (mark_conversation_read s user other).messages.get ⟨i, hi'⟩
            = s.messages.get ⟨i, hi⟩)
    ∧ ((s.messages.get ⟨i, hi⟩).is_read = true →
          (mark_conversation_read s user other).messages.get ⟨i, hi'⟩
            = s.messages.get ⟨i, hi⟩) := by
  have hm : mark_conversation_read s user other
      = { s with messages := s.messages.map (fun m =>
          if m.conversation == some c.id && m.recipient == user && !m.is_read
          then { m with is_read := true } else m) } := by
    simp [mark_conversation_read, hc]
  rw [hm]
  refine ⟨List.length_map _ _, ?_⟩
  intro i hi hi'
  simp only [List.get_eq_getElem, List.getElem_map]
  refine ⟨fun h1 h2 h3 => ?_, fun h2 => ?_, fun h1 => ?_, fun h3 => ?_⟩
  · simp [h1, h2, h3]
  · simp [h2]
  · simp [h1]
  · simp [h3]

/-- Witness for C7 at the two-message fixture conversation: the unread message
addressed to requester 1 is flipped to read, the message addressed to user 2
is untouched. -/
theorem C7_mark_conversation_read_frame_witness :
    ((mark_conversation_read sC7 1 2).messages.get
        ⟨0, by decide⟩
      = { sC7.messages.get ⟨0, by decide⟩ with is_read := true })
  ∧ ((mark_conversation_read sC7 1 2).messages.get ⟨1, by decide⟩
      = sC7.messages.get ⟨1, by decide⟩) :=
  ⟨((C7_mark_conversation_read_frame sC7 1 2 cC7 (by decide)).2 0 (by decide)
      (by decide)).1 rfl rfl rfl,
   ((C7_mark_conversation_read_frame sC7 1 2 cC7 (by decide)).2 1 (by decide)
      (by decide)).2.1 (by decide)⟩

/-! ### Claim C10 -/

/-- Claim C10: polling a two-party conversation with a valid cursor returns
exactly the conversation's messages sent by the peer with `created_at`
strictly greater than the cursor, in ascending `created_at` order, and as a
side effect bulk-marks every such previously-unread message as read, touching
nothing else.  The two-party hypothesis says every message of the conversation
was sent by one of its two participants. -/
theorem C10_poll_returns_and_marks_read (s : State) (user other : Nat)
    (str : String) (dt : Nat) (c : ConversationRow)
    (hp : parse_datetime str = some dt)
    (hc : findConversation s user other = some c)
    (htwo : ∀ m ∈ s.messages, m.conversation = some c.id →
        m.sender = user ∨ m.sender = other)
    (hne : user ≠ other) :
    List.Perm (get_new_messages s user other (some str)).2
      (s.messages.filter (fun m =>
        m.conversation == some c.id && dt < m.created_at && m.sender == other))
  ∧ (get_new_messages s user other (some str)).2.Pairwise
      (fun a b => a.created_at ≤ b.created_at)
  ∧ (get_new_messages s user other (some str)).1.messages.length
      = s.messages.length
  ∧ ∀ (i : Nat) (hi : i < s.messages.length)
      (hi' : i < (get_new_messages s user other (some str)).1.messages.length),
      ((s.messages.get ⟨i, hi⟩).conversation = some c.id →
        dt < (s.messages.get ⟨i, hi⟩).created_at →
        (s.messages.get ⟨i, hi⟩).sender ≠ user →
        (s.messages.get ⟨i, hi⟩).is_read = false →
          (get_new_messages s user other (some str)).1.messages.get ⟨i, hi'⟩
            = { s.messages.get ⟨i, hi⟩ with is_read := true })
    ∧ ((s.messages.get ⟨i, hi⟩).sender = user →
          (get_new_messages s user other (some str)).1.messages.get ⟨i, hi'⟩
            = s.messages.get ⟨i, hi⟩)
    ∧ ((s.messages.get ⟨i, hi⟩).conversation ≠ some c.id →
          (get_new_messages s user other (some str)).1.messages.get ⟨i, hi'⟩
            = s.messages.get ⟨i, hi⟩)
    ∧ (¬ dt < (s.messages.get ⟨i, hi⟩).created_at →
          (get_new_messages s user other (some str)).1.messages.get ⟨i, hi'⟩
            = s.messages.get ⟨i, hi⟩)
    ∧ ((s.messages.get ⟨i, hi⟩).is_read = true →
          (get_new_messages s user other (some str)).1.messages.get ⟨i, hi'⟩
            = s.messages.get ⟨i, hi⟩) := by
  have hg : get_new_messages s user other (some str)
      = ({ s with messages := s.messages.map (fun m =>
            if (m.conversation == some c.id && dt < m.created_at
                && m.sender != user) && !m.is_read
            then { m with is_read := true } else m) },
         orderBy (fun a b => a.created_at ≤ b.created_at)
           (s.messages.filter (fun m =>
             m.conversation == some c.id && dt < m.created_at
               && m.sender != user))) := by
    simp [get_new_messages, hp, hc]
  have hfe : s.messages.filter (fun m =>
        m.conversation == some c.id && dt < m.created_at && m.sender != user)
      = s.messages.filter (fun m =>
        m.conversation == some c.id && dt < m.created_at && m.sender == other) := by
    refine List.filter_congr (fun m hm => ?_)
    by_cases h1 : m.conversation = some c.id
    · rcases htwo m hm h1 with hs | hs
      · simp [hs, hne]
      · have hou : other ≠ user := fun h => hne h.symm
        simp [hs, hou]
    · have ha : (m.conversation == some c.id) = false := by simpa using h1
      simp [ha]
  rw [hg]
  refine ⟨?_, ?_, List.length_map _ _, ?_⟩
  · exact hfe ▸ orderBy_perm _ _
  · have htot : ∀ a b : MessageRow,
        (decide (a.created_at ≤ b.created_at)) = true
          ∨ (decide (b.created_at ≤ a.created_at)) = true := by
      intro a b
      rcases Nat.le_total a.created_at b.created_at with h | h
      · left; simpa using h
      · right; simpa using h
    have htr : ∀ a b c : MessageRow,
        decide (a.created_at ≤ b.created_at) = true →
        decide (b.created_at ≤ c.created_at) = true →
        decide (a.created_at ≤ c.created_at) = true := by
      intro a b c h1 h2
      simp only [decide_eq_true_eq] at h1 h2 ⊢
      omega
    exact (pairwise_orderBy _ htot htr _).imp (fun h => of_decide_eq_true h)
  · intro i hi hi'
    simp only [List.get_eq_getElem, List.getElem_map]
    refine ⟨fun h1 h2 h3 h4 => ?_, fun h3 => ?_, fun h1 => ?_,
      fun h2 => ?_, fun h4 => ?_⟩
    · simp [h1, h2, h3, h4]
    · simp [h3]
    · simp [h1]
    · simp [h2]
    · simp [h4]

/-- Witness for C10 at the fixture conversation: the poll returns the peer's
two newer messages in ascending timestamp order. -/
theorem C10_poll_returns_and_marks_read_witness :
    (get_new_messages sC10 1 2 (some "5")).2.Pairwise
      (fun a b => a.created_at ≤ b.created_at) :=
  (C10_poll_returns_and_marks_read sC10 1 2 "5" 5 cC10 (by decide) (by decide)
    (by decide) (by decide)).2.1

/-! ### Claim C4 -/

/-- The counter recomputation writes only the `posts` table. -/
theorem update_keeps_likes (s : State) (pid : Nat) :
    (update_likes_count s pid).likes = s.likes := rfl

/-- Rewriting the cached counter with the value it already holds is the
identity on the row. -/
theorem postRow_set_likes_self (p : PostRow) (c : Nat) (h : p.likes_count = c) :
    ({ p with likes_count := c } : PostRow) = p := by
  cases p
  cases h
  rfl

/-- Two successive counter rewrites of the same post collapse to the second
one; when that second value is what each affected row already held, the post
table is unchanged. -/
theorem map_update_twice_restore (posts : List PostRow) (pid c₁ c₂ : Nat)
    (h : ∀ p ∈ posts, p.id = pid → p.likes_count = c₂) :
    (posts.map
      (fun p => if p.id == pid then { p with likes_count := c₁ } else p)).map
      (fun p => if p.id == pid then { p with likes_count := c₂ } else p)
    = posts := by
  rw [List.map_map]
  have hcongr : ∀ p ∈ posts,
      ((fun p => if p.id == pid then { p with likes_count := c₂ } else p) ∘
       (fun p => if p.id == pid then { p with likes_count := c₁ } else p)) p
        = id p := by
    intro p hp
    by_cases hid : p.id = pid
    · have hb : (p.id == pid) = true := by simpa using hid
      have hb2 : ((({ p with likes_count := c₁ } : PostRow)).id == pid) = true :=
        hb
      simp only [Function.comp_apply, id_eq]
      rw [if_pos hb, if_pos hb2]
      exact postRow_set_likes_self p c₂ (h p hp hid)
    · have hb : ¬((p.id == pid) = true) := by simpa using hid
      simp only [Function.comp_apply, id_eq]
      rw [if_neg hb, if_neg hb]
  rw [List.map_congr_left hcongr, List.map_id]

/-- Claim C4: toggling the like of the same `(user, post)` pair twice in
succession returns the pair to its original liked state and the whole post
table — in particular the post's `likes_count` — to its original contents.
The hypotheses are the store invariants: primary keys of `Like` rows are
unique, the pair `(user, post)` occurs at most once (`unique_together`), and
the cached counter agrees with the live count, as the signal handlers
guarantee after every like mutation. -/
theorem C4_toggle_like_twice_restores (s : State) (user pid id1 t1 id2 t2 : Nat)
    (hids : (s.likes.map LikeRow.id).Nodup)
    (hpair : ∀ l₁ ∈ s.likes, ∀ l₂ ∈ s.likes,
        l₁.user = user → l₁.post = pid → l₂.user = user → l₂.post = pid →
          l₁ = l₂)
    (hcache : ∀ p ∈ s.posts, p.id = pid → p.likes_count = live_likes s pid) :
    isLiked ((toggle_like_view ((toggle_like_view s user pid id1 t1).1)
        user pid id2 t2).1) user pid = isLiked s user pid
  ∧ ((toggle_like_view ((toggle_like_view s user pid id1 t1).1)
        user pid id2 t2).1).posts = s.posts := by
  rcases hfind : s.likes.find? (fun l => l.user == user && l.post == pid)
    with _ | l0
  · -- not liked: the first toggle creates a like, the second deletes it again
    have e1 : (toggle_like_view s user pid id1 t1).1
        = update_likes_count
            { s with likes := ⟨id1, user, pid, t1⟩ :: s.likes } pid := by
      simp only [toggle_like_view, hfind]
    have efind2 : ((update_likes_count
          { s with likes := ⟨id1, user, pid, t1⟩ :: s.likes } pid).likes).find?
        (fun l => l.user == user && l.post == pid)
          = some ⟨id1, user, pid, t1⟩ := by
      rw [update_keeps_likes]
      exact List.find?_cons_of_pos _ (by simp)
    have e3 : (toggle_like_view (update_likes_count
          { s with likes := ⟨id1, user, pid, t1⟩ :: s.likes } pid)
            user pid id2 t2).1
        = update_likes_count
            { update_likes_count
                { s with likes := ⟨id1, user, pid, t1⟩ :: s.likes } pid with
              likes := ((update_likes_count
                { s with likes := ⟨id1, user, pid, t1⟩ :: s.likes } pid).likes).eraseP
                  (fun x => x.id == (⟨id1, user, pid, t1⟩ : LikeRow).id) }
            (⟨id1, user, pid, t1⟩ : LikeRow).post := by
      simp only [toggle_like_view, efind2]
    have e4 : ((update_likes_count
          { s with likes := ⟨id1, user, pid, t1⟩ :: s.likes } pid).likes).eraseP
        (fun x => x.id == (⟨id1, user, pid, t1⟩ : LikeRow).id) = s.likes := by
      rw [update_keeps_likes]
      exact List.eraseP_cons_of_pos (by simp)
    refine ⟨?_, ?_⟩
    · rw [e1, e3, e4]
      exact rfl
    · rw [e1, e3, e4]
      exact map_update_twice_restore s.posts pid _ _ hcache
  · -- liked: the first toggle deletes the row, the second recreates the pair
    have hl := List.find?_some hfind
    have hmem := List.mem_of_find?_eq_some hfind
    obtain ⟨hlu, hlp⟩ : l0.user = user ∧ l0.post = pid := by simpa using hl
    obtain ⟨a, l₁, l₂, hnone, hpa, hdecomp, herase⟩ :=
      List.exists_of_eraseP (p := fun x => x.id == l0.id) hmem (by simp)
    have ha : a = l0 := by
      refine eq_of_mem_of_id_eq hids ?_ hmem (by simpa using hpa)
      rw [hdecomp]
      exact List.mem_append.mpr (Or.inr (List.mem_cons_self a l₂))
    subst ha
    have hids' : ((l₁ ++ a :: l₂).map LikeRow.id).Nodup := hdecomp ▸ hids
    rw [List.map_append, List.map_cons, List.nodup_append] at hids'
    have hnotin1 : a.id ∉ l₁.map LikeRow.id := fun hin =>
      hids'.2.2 hin (List.mem_cons_self _ _)
    have hnotin2 : a.id ∉ l₂.map LikeRow.id := (List.nodup_cons.mp hids'.2.1).1
    have hfind2' : (l₁ ++ l₂).find? (fun x => x.user == user && x.post == pid)
        = none := by
      rw [List.find?_eq_none]
      intro x hx hpx
      obtain ⟨hxu, hxp⟩ : x.user = user ∧ x.post = pid := by simpa using hpx
      have hxmem : x ∈ s.likes := by
        rw [hdecomp]
        rcases List.mem_append.mp hx with h | h
        · exact List.mem_append.mpr (Or.inl h)
        · exact List.mem_append.mpr (Or.inr (List.mem_cons_of_mem _ h))
      have hxa : x = a := hpair x hxmem a hmem hxu hxp hlu hlp
      subst hxa
      rcases List.mem_append.mp hx with h | h
      · exact hnotin1 (List.mem_map_of_mem _ h)
      · exact hnotin2 (List.mem_map_of_mem _ h)
    have hyes : isLiked s user pid = true :=
      List.any_eq_true.mpr ⟨a, hmem, hl⟩
    have e1 : (toggle_like_view s user pid id1 t1).1
        = update_likes_count { s with likes := l₁ ++ l₂ } a.post := by
      simp only [toggle_like_view, hfind, herase]
    have efind2 : ((update_likes_count
          { s with likes := l₁ ++ l₂ } a.post).likes).find?
        (fun x => x.user == user && x.post == pid) = none := by
      rw [update_keeps_likes]
      exact hfind2'
    have e3 : (toggle_like_view (update_likes_count
          { s with likes := l₁ ++ l₂ } a.post) user pid id2 t2).1
        = update_likes_count
            { update_likes_count { s with likes := l₁ ++ l₂ } a.post with
              likes := ⟨id2, user, pid, t2⟩ :: (update_likes_count
                { s with likes := l₁ ++ l₂ } a.post).likes } pid := by
      simp only [toggle_like_view, efind2]
    have hlive : live_likes s pid
        = ((⟨id2, user, pid, t2⟩ :: (l₁ ++ l₂) : List LikeRow).filter
            (fun x => x.post == pid)).length := by
      simp [live_likes, hdecomp, List.filter_append, List.filter_cons, hlp]
      omega
    refine ⟨?_, ?_⟩
    · rw [e1, e3, hyes]
      simp [isLiked, update_keeps_likes]
    · rw [e1, e3, hlp]
      refine map_update_twice_restore s.posts pid _ _ (fun p hp hpe => ?_)
      exact (hcache p hp hpe).trans hlive

/-- Witness for C4: starting from a post with no likes and a consistent
counter, user 3 toggling post 1 twice leaves the liked state false and the
post table as it was. -/
theorem C4_toggle_like_twice_restores_witness :
    isLiked ((toggle_like_view ((toggle_like_view sC4 3 1 1 5).1)
        3 1 2 6).1) 3 1 = isLiked sC4 3 1
  ∧ ((toggle_like_view ((toggle_like_view sC4 3 1 1 5).1) 3 1 2 6).1).posts
      = sC4.posts :=
  C4_toggle_like_twice_restores sC4 3 1 1 5 2 6 (by decide) (by decide)
    (by decide)

end Feed
